import Mathlib

/-!
Verification of the yarn-matching core of the Tangled repository.

The embedding models the two Python source files:
* `slice10_yarn_match.py` — weight normalization, the five criterion
  scorers, the composite scorer `calculate_match_score`, and the ranker
  `match_yarn_to_pattern`;
* `pattern_planner_app.py` — the fiber-warmth classifier
  `get_yarn_temp_range`, the temperature scorer
  `calculate_temp_match_score`, and the module-level blended total.

Pandas cells are modelled explicitly: a cell that can be NaN, a number,
or unparseable text is a small inductive; fiber percentages are
`Option ℚ` with `none` standing for NaN (comparisons against NaN are
false, additions with NaN give NaN). Scores are exact rationals.
-/

namespace Tangled

/-! ## Character and string helpers (Python `.lower()`, `.strip()`, `in`) -/

/-- ASCII lower-casing of one character, as Python `str.lower` acts on the
ASCII letters that occur in the repository's data. -/
def lowerChar (c : Char) : Char :=
  if 65 ≤ c.toNat ∧ c.toNat ≤ 90 then Char.ofNat (c.toNat + 32) else c

/-- Lower-case every character of a list. -/
def lowerList (l : List Char) : List Char := l.map lowerChar

/-- Drop leading whitespace, modelling one side of Python `str.strip`. -/
def dropWS : List Char → List Char
  | [] => []
  | c :: cs => if c.isWhitespace then dropWS cs else c :: cs

/-- Strip whitespace from both ends, modelling Python `str.strip`. -/
def trimList (l : List Char) : List Char :=
  (dropWS ((dropWS l).reverse)).reverse

/-- Python `str(x).lower().strip()` on a string. -/
def trimLower (s : String) : String :=
  String.mk (trimList (lowerList s.data))

/-- Python `s.lower()` on a string (no strip). -/
def lowerStr (s : String) : String :=
  String.mk (lowerList s.data)

/-- Boolean list-prefix test. -/
def prefixOfB : List Char → List Char → Bool
  | [], _ => true
  | _ :: _, [] => false
  | a :: as, b :: bs => a == b && prefixOfB as bs

/-- Boolean substring containment: does `needle` occur inside the second
list?  Models Python `needle in hay` on strings. -/
def containsB (needle : List Char) : List Char → Bool
  | [] => needle.isEmpty
  | c :: rest => prefixOfB needle (c :: rest) || containsB needle rest

/-- Python `needle in hay` for strings. -/
def substrOf (needle hay : String) : Bool :=
  containsB needle.data hay.data

/-! ## Pandas cell values -/

/-- A pandas cell read for a numeric-intent column (rating, price, hook
size): `na` is a missing value (NaN, caught by `pd.notna`), `num q` is a
value that `float()` converts to the rational `q`, and `nonnum` is a
present value on which `float()` raises (including an empty string for
hook sizes). -/
inductive Cell
  | na
  | num (q : ℚ)
  | nonnum
deriving DecidableEq

/-- NaN-aware strict comparison: Python `x > c` where `x` may be NaN
(`none`); any comparison against NaN is false. -/
def gtNa (x : Option ℚ) (c : ℚ) : Bool :=
  match x with
  | none => false
  | some q => decide (q > c)

/-- NaN-propagating addition on fiber percentages. -/
def addNa (x y : Option ℚ) : Option ℚ :=
  match x, y with
  | some a, some b => some (a + b)
  | _, _ => none

/-- Python `str(x)` on a possibly-NaN text cell: `str(nan)` is `"nan"`. -/
def strOf (x : Option String) : String :=
  match x with
  | none => "nan"
  | some s => s

/-! ## Data model -/

/-- A pattern row, restricted to the fields the matching core reads. -/
structure Pattern where
  name : String
  yarn_weight : Option String
  hook_size : Cell
  recommended_composition : Option String
deriving DecidableEq

/-- A yarn row, restricted to the fields the matching core reads.
Fiber percentages are `Option ℚ` with `none` for NaN. -/
structure Yarn where
  name : String
  price : Cell
  rating : Cell
  thickness : Option String
  hook : Cell
  cotton : Option ℚ
  linen : Option ℚ
  bamboo : Option ℚ
  acrylic : Option ℚ
  wool : Option ℚ
  mohair : Option ℚ
deriving DecidableEq

/-! ## Weight normalization (`normalize_yarn_weight`, slice10 lines 15-38) -/

/-- The substring-keyed synonym table, in Python dict declaration order
(dict iteration preserves insertion order). -/
def weight_map : List (String × String) :=
  [("light", "sport"), ("light/sport", "sport"), ("dk", "DK"),
   ("medium", "worsted"), ("aran", "worsted"), ("heavy", "bulky"),
   ("super bulky", "super bulky"), ("jumbo", "super bulky")]

/-- First-match-wins substring scan over the synonym table, modelling the
`for key, value in weight_map.items(): if key in weight: return value`
loop. -/
def lookupSub (t : String) : List (String × String) → Option String
  | [] => none
  | (k, v) :: rest => if substrOf k t then some v else lookupSub t rest

/-- `normalize_yarn_weight`: NaN maps to `None`; otherwise the input is
lower-cased and stripped, scanned against the synonym table, and passed
through unchanged when no table key is a substring. -/
def normalize_yarn_weight : Option String → Option String
  | none => none
  | some w =>
    let t := trimLower w
    match lookupSub t weight_map with
    | some v => some v
    | none => some t

/-! ## Criterion scorers (`calculate_match_score`, slice10 lines 40-127) -/

/-- The weight-compatibility adjacency table (slice10 lines 56-61). -/
def compatible : List (String × List String) :=
  [("sport", ["DK"]), ("DK", ["sport", "worsted"]),
   ("worsted", ["DK", "bulky"]), ("bulky", ["worsted", "super bulky"])]

/-- Exact key lookup in the adjacency table (`pattern_weight in compatible`
followed by `compatible.get(pattern_weight, [])`). -/
def lookupEq (k : String) : List (String × List String) → Option (List String)
  | [] => none
  | (k0, v) :: rest => if k0 == k then some v else lookupEq k rest

/-- Criterion 1, yarn-weight match (max 30), slice10 lines 46-63.
Both normalized values must be truthy (non-`None` and non-empty);
containment either way of the lower-cased values scores 30; otherwise an
adjacency-table hit scores 15. -/
def weight_score (pw yw : Option String) : ℚ :=
  match normalize_yarn_weight pw, normalize_yarn_weight yw with
  | some p, some y =>
    if p.isEmpty || y.isEmpty then 0
    else if substrOf (lowerStr p) (lowerStr y) || substrOf (lowerStr y) (lowerStr p) then 30
    else
      match lookupEq p compatible with
      | some lst => if lst.contains y then 15 else 0
      | none => 0
  | _, _ => 0

/-- Criterion 2, hook-size match (max 20), slice10 lines 65-85.  Scores
only when both cells convert to numbers; a missing or unparseable cell
(including an empty string) contributes 0 via `pd.notna` or the
`except` clause. -/
def hook_score (ph yh : Cell) : ℚ :=
  match ph, yh with
  | Cell.num a, Cell.num b =>
    if |a - b| = 0 then 20
    else if |a - b| ≤ 1/2 then 15
    else if |a - b| ≤ 1 then 10
    else 0
  | _, _ => 0

/-- Criterion 3, composition suitability (max 20), slice10 lines 87-98.
The `elif` chain: a branch fires only when its keyword occurs in the
lower-cased text AND the fiber percentage exceeds 50; otherwise the next
branch is tried. -/
def composition_score (compText : Option String) (cotton acrylic wool : Option ℚ) : ℚ :=
  let t := lowerStr (strOf compText)
  if substrOf "cotton" t && gtNa cotton 50 then 20
  else if substrOf "acrylic" t && gtNa acrylic 50 then 20
  else if substrOf "wool" t && gtNa wool 50 then 20
  else if substrOf "not specified" t then 10
  else 0

/-- Criterion 4, rating (max 15), slice10 lines 100-107: numeric rating
scales by 15/5 with no clamping; present but unparseable gives 7.5;
missing gives 0. -/
def rating_score (r : Cell) : ℚ :=
  match r with
  | Cell.na => 0
  | Cell.num q => q / 5 * 15
  | Cell.nonnum => 15/2

/-- Criterion 5, price (max 15), slice10 lines 109-122. -/
def price_score (p : Cell) : ℚ :=
  match p with
  | Cell.na => 0
  | Cell.num q => if q < 3 then 15 else if q < 5 then 10 else if q < 8 then 5 else 0
  | Cell.nonnum => 15/2

/-- `calculate_match_score` (slice10 lines 40-127): the five criterion
scores accumulate into `score` while `max_score` accumulates to 100; the
function returns `score / max_score * 100`. -/
def calculate_match_score (p : Pattern) (y : Yarn) : ℚ :=
  let score := weight_score p.yarn_weight y.thickness
    + hook_score p.hook_size y.hook
    + composition_score p.recommended_composition y.cotton y.acrylic y.wool
    + rating_score y.rating
    + price_score y.price
  if (100 : ℚ) > 0 then score / 100 * 100 else 0

/-! ## Temperature model (`pattern_planner_app.py`) -/

/-- The derived temperature comfort range record. -/
structure TempRange where
  min : ℚ
  max : ℚ
  ideal : ℚ
  type : String
deriving DecidableEq

/-- `get_yarn_temp_range` (app lines 72-92): cool fiber is
cotton+linen+bamboo, warm fiber is wool+mohair; first match wins in the
order warm>50, cool>50, acrylic>70, default Blend.  A NaN percentage
makes its sums NaN and every comparison on NaN is false; a column absent
from the row would read as the `.get` default 0. -/
def get_yarn_temp_range (y : Yarn) : TempRange :=
  let cool_fiber_pct := addNa (addNa y.cotton y.linen) y.bamboo
  let warm_fiber_pct := addNa y.wool y.mohair
  if gtNa warm_fiber_pct 50 then ⟨-10, 15, 5, "Warm (Wool/Alpaca)"⟩
  else if gtNa cool_fiber_pct 50 then ⟨15, 35, 22, "Cool (Cotton/Linen)"⟩
  else if gtNa y.acrylic 70 then ⟨5, 20, 12, "All-season (Acrylic)"⟩
  else ⟨5, 25, 15, "Blend"⟩

/-- `calculate_temp_match_score` (app lines 94-112). -/
def calculate_temp_match_score (r : TempRange) (current_temp : ℚ) : ℚ :=
  if r.min ≤ current_temp ∧ current_temp ≤ r.max then
    max 0 (30 - |current_temp - r.ideal| * (3/2))
  else
    max 0 (30 - (if current_temp < r.min then r.min - current_temp
                 else current_temp - r.max) * 3)

/-- The module-level blended total (app lines 274-283):
`total_score = base_score * 0.7 + temp_score`. -/
def app_total_score (p : Pattern) (y : Yarn) (current_temp : ℚ) : ℚ :=
  calculate_match_score p y * (7/10)
    + calculate_temp_match_score (get_yarn_temp_range y) current_temp

/-! ## Ranker (`match_yarn_to_pattern`, slice10 lines 129-155) -/

/-- The exceptions the ranker can raise: `notFound` models the
`IndexError` raised by `.iloc[0]` on the empty selection produced by an
unknown pattern name (slice10 line 133); `keyError` models the
`KeyError` raised by `sort_values(score)` when the scores list is empty,
because `pd.DataFrame` of an empty list has no columns (line 153). -/
inductive MatchError
  | notFound
  | keyError
deriving DecidableEq

/-- One row of the scores table built in the loop (slice10 lines 137-149). -/
structure MatchResult where
  yarn_name : String
  score : ℚ
  price : Cell
  rating : Cell
  yarn_weight : Option String
  hook_size : Cell
  cotton : Option ℚ
  acrylic : Option ℚ
  wool : Option ℚ
deriving DecidableEq

/-- Build the scores-table row for one yarn. -/
def mkMatchResult (p : Pattern) (y : Yarn) : MatchResult :=
  { yarn_name := y.name
    score := calculate_match_score p y
    price := y.price
    rating := y.rating
    yarn_weight := y.thickness
    hook_size := y.hook
    cotton := y.cotton
    acrylic := y.acrylic
    wool := y.wool }

/-- Non-increasing order on score, the order `sort_values` with
`ascending=False` establishes. -/
def scoreGe (a b : MatchResult) : Prop := b.score ≤ a.score

instance : DecidableRel scoreGe := fun a b =>
  inferInstanceAs (Decidable (b.score ≤ a.score))

instance : IsTotal MatchResult scoreGe :=
  ⟨fun a b => le_total b.score a.score⟩

instance : IsTrans MatchResult scoreGe :=
  ⟨fun _ _ _ h1 h2 => le_trans h2 h1⟩

/-- `match_yarn_to_pattern` (slice10 lines 129-155): select the first
pattern row whose name equals `pattern_name` (`.iloc[0]`, raising on an
empty selection), score every yarn in catalog order, sort the rows
descending by score, and return the first `top_n`.  The source sorts
with `sort_values` at its default `kind=quicksort`, which fixes only the
score order and NOT the relative order of equal-score rows; the
embedding uses `List.insertionSort` as one admissible sorted
permutation, and no theorem below relies on its tie order.  Sorting an
empty scores table raises `KeyError` because the frame has no score
column. -/
def match_yarn_to_pattern (pattern_name : String) (patterns : List Pattern)
    (yarns : List Yarn) (top_n : ℕ) :
    Except MatchError (Pattern × List MatchResult) :=
  match patterns.filter (fun p => p.name == pattern_name) with
  | [] => Except.error MatchError.notFound
  | p :: _ =>
    let scores := yarns.map (mkMatchResult p)
    if scores.isEmpty then Except.error MatchError.keyError
    else Except.ok (p, (List.insertionSort scoreGe scores).take top_n)

/-- `match_yarn_to_pattern` with its declared default `top_n=5`
(slice10 line 129). -/
def match_yarn_to_pattern_default (pattern_name : String)
    (patterns : List Pattern) (yarns : List Yarn) :
    Except MatchError (Pattern × List MatchResult) :=
  match_yarn_to_pattern pattern_name patterns yarns 5

/-! ## Concrete rows used in examples and counterexamples -/

/-- The rating field is on its documented 0-5 scale (or not numeric). -/
def rating_within_scale : Cell → Prop
  | Cell.num q => 0 ≤ q ∧ q ≤ 5
  | _ => True

instance (c : Cell) : Decidable (rating_within_scale c) :=
  match c with
  | Cell.na => inferInstanceAs (Decidable True)
  | Cell.num q => inferInstanceAs (Decidable (0 ≤ q ∧ q ≤ 5))
  | Cell.nonnum => inferInstanceAs (Decidable True)

/-- A pattern row requiring worsted cotton with a 5 mm hook. -/
def overPattern : Pattern :=
  { name := "P", yarn_weight := some "worsted", hook_size := Cell.num 5,
    recommended_composition := some "cotton" }

/-- A yarn that matches `overPattern` on every criterion and carries the
out-of-scale rating 10. -/
def overYarn : Yarn :=
  { name := "Y", price := Cell.num 2, rating := Cell.num 10,
    thickness := some "worsted", hook := Cell.num 5, cotton := some 80,
    linen := none, bamboo := none, acrylic := none, wool := none,
    mohair := none }

/-- A yarn with its rating on the documented 0-5 scale. -/
def scaleYarn : Yarn :=
  { name := "Y2", price := Cell.num 4, rating := Cell.num 4,
    thickness := some "DK", hook := Cell.num 4, cotton := some 40,
    linen := none, bamboo := none, acrylic := some 60, wool := none,
    mohair := none }

/-- A yarn that is 70% wool and 10% mohair. -/
def woolYarn : Yarn :=
  { name := "W", price := Cell.na, rating := Cell.na, thickness := none,
    hook := Cell.na, cotton := none, linen := none, bamboo := none,
    acrylic := none, wool := some 70, mohair := some 10 }

/-- A yarn whose fiber-percentage cells are all NaN. -/
def nanYarn : Yarn :=
  { name := "N", price := Cell.na, rating := Cell.na, thickness := none,
    hook := Cell.na, cotton := none, linen := none, bamboo := none,
    acrylic := none, wool := none, mohair := none }

/-- A yarn whose fiber-percentage fields all read as the `.get` default 0,
as they would when the columns are absent from the row. -/
def zeroFiberYarn : Yarn :=
  { name := "Z", price := Cell.na, rating := Cell.na, thickness := none,
    hook := Cell.na, cotton := some 0, linen := some 0, bamboo := some 0,
    acrylic := some 0, wool := some 0, mohair := some 0 }

/-- A pattern row like the ones the repository's `__main__` block tests. -/
def circlePattern : Pattern :=
  { name := "CIRCLE CUSHION", yarn_weight := some "DK",
    hook_size := Cell.num 4, recommended_composition := some "Cotton" }

/-- A pattern with every scoring field absent. -/
def pA : Pattern :=
  { name := "A", yarn_weight := none, hook_size := Cell.na,
    recommended_composition := none }

/-- All-absent yarns, distinguished only by name; every one scores 0. -/
def wy1 : Yarn :=
  { name := "Y1", price := Cell.na, rating := Cell.na, thickness := none,
    hook := Cell.na, cotton := none, linen := none, bamboo := none,
    acrylic := none, wool := none, mohair := none }

def wy2 : Yarn := { wy1 with name := "Y2" }

def wy3 : Yarn := { wy1 with name := "Y3" }

def wy4 : Yarn := { wy1 with name := "Y4" }

/-! ## Lemmas: lower-casing and trimming -/

theorem toNat_ofNat_valid {n : ℕ} (h : n.isValidChar) :
    (Char.ofNat n).toNat = n := by
  unfold Char.ofNat
  rw [dif_pos h]
  rfl

theorem lowerChar_idem (c : Char) : lowerChar (lowerChar c) = lowerChar c := by
  by_cases h : 65 ≤ c.toNat ∧ c.toNat ≤ 90
  · have hv : (c.toNat + 32).isValidChar := Or.inl (by omega)
    have ht : (Char.ofNat (c.toNat + 32)).toNat = c.toNat + 32 := toNat_ofNat_valid hv
    have h1 : lowerChar c = Char.ofNat (c.toNat + 32) := by
      simp only [lowerChar, if_pos h]
    rw [h1]
    simp only [lowerChar, ht]
    rw [if_neg (by omega)]
  · have h1 : lowerChar c = c := by simp only [lowerChar, if_neg h]
    rw [h1, h1]

theorem mem_dropWS {c : Char} : ∀ {l : List Char}, c ∈ dropWS l → c ∈ l := by
  intro l
  induction l with
  | nil => simp [dropWS]
  | cons d t ih =>
    simp only [dropWS]
    split
    · intro h
      exact List.mem_cons_of_mem d (ih h)
    · exact id

theorem dropWS_head_not_ws :
    ∀ l : List Char, dropWS l = [] ∨
      ∃ c t, dropWS l = c :: t ∧ c.isWhitespace = false := by
  intro l
  induction l with
  | nil => exact Or.inl rfl
  | cons d t ih =>
    simp only [dropWS]
    split
    · exact ih
    · exact Or.inr ⟨d, t, rfl, by simp_all⟩

theorem dropWS_idem (l : List Char) : dropWS (dropWS l) = dropWS l := by
  rcases dropWS_head_not_ws l with h | ⟨c, t, h, hc⟩
  · rw [h]; rfl
  · rw [h]
    simp [dropWS, hc]

theorem dropWS_suffix (l : List Char) : ∃ p, l = p ++ dropWS l := by
  induction l with
  | nil => exact ⟨[], rfl⟩
  | cons d t ih =>
    by_cases h : d.isWhitespace
    · obtain ⟨p, hp⟩ := ih
      refine ⟨d :: p, ?_⟩
      simp only [dropWS, if_pos h]
      rw [List.cons_append, ← hp]
    · refine ⟨[], ?_⟩
      simp [dropWS, h]

theorem dropWS_of_head_not_ws {c : Char} {t : List Char}
    (h : c.isWhitespace = false) : dropWS (c :: t) = c :: t := by
  simp [dropWS, h]

theorem dropWS_reverse_fixed {a : List Char} (ha : dropWS a = a) :
    dropWS ((dropWS a.reverse).reverse) = (dropWS a.reverse).reverse := by
  obtain ⟨p, hp⟩ := dropWS_suffix a.reverse
  have hpre : a = (dropWS a.reverse).reverse ++ p.reverse := by
    have h := congrArg List.reverse hp
    rwa [List.reverse_reverse, List.reverse_append] at h
  cases hbr : (dropWS a.reverse).reverse with
  | nil => rfl
  | cons e es =>
    rw [hbr] at hpre
    have hae : a = e :: (es ++ p.reverse) := by rw [hpre]; rfl
    have hens : e.isWhitespace = false := by
      rcases dropWS_head_not_ws a with h1 | ⟨d, s, h1, hd⟩
      · rw [ha] at h1
        rw [h1] at hae
        exact absurd hae (by simp)
      · rw [ha] at h1
        rw [h1] at hae
        injection hae with h2 _
        rw [← h2]
        exact hd
    exact dropWS_of_head_not_ws hens

theorem trimList_idem (l : List Char) : trimList (trimList l) = trimList l := by
  unfold trimList
  rw [dropWS_reverse_fixed (dropWS_idem l), List.reverse_reverse, dropWS_idem]

theorem map_fixed {f : Char → Char} :
    ∀ {v : List Char}, (∀ c ∈ v, f c = c) → v.map f = v := by
  intro v
  induction v with
  | nil => intro _; rfl
  | cons c t ih =>
    intro h
    simp only [List.map_cons]
    rw [h c (List.mem_cons_self c t), ih fun d hd => h d (List.mem_cons_of_mem c hd)]

theorem mem_trimList {c : Char} {l : List Char} (h : c ∈ trimList l) : c ∈ l := by
  unfold trimList at h
  rw [List.mem_reverse] at h
  have h1 := mem_dropWS h
  rw [List.mem_reverse] at h1
  exact mem_dropWS h1

theorem trimLower_idem (s : String) : trimLower (trimLower s) = trimLower s := by
  unfold trimLower
  have hdata : (String.mk (trimList (lowerList s.data))).data
      = trimList (lowerList s.data) := rfl
  rw [hdata]
  have hfix : lowerList (trimList (lowerList s.data)) = trimList (lowerList s.data) := by
    apply map_fixed
    intro c hc
    have hc2 : c ∈ lowerList s.data := mem_trimList hc
    obtain ⟨c0, _, hc0⟩ := List.mem_map.mp hc2
    rw [← hc0]
    exact lowerChar_idem c0
  rw [hfix, trimList_idem]

/-! ## Lemmas: weight normalization -/

theorem lookupSub_some_mem {t v : String} :
    ∀ {m : List (String × String)}, lookupSub t m = some v → ∃ k, (k, v) ∈ m := by
  intro m
  induction m with
  | nil => intro h; exact absurd h (by simp [lookupSub])
  | cons kv rest ih =>
    intro h
    by_cases hk : substrOf kv.1 t = true
    · refine ⟨kv.1, ?_⟩
      have hv : some kv.2 = some v := by
        rw [← h]
        simp [lookupSub, hk]
      injection hv with hv
      rw [← hv, Prod.mk.eta]
      exact List.mem_cons_self _ _
    · obtain ⟨k, hk2⟩ := ih (by rw [← h]; simp [lookupSub, hk])
      exact ⟨k, List.mem_cons_of_mem _ hk2⟩

theorem weight_map_values_fixed :
    ∀ kv ∈ weight_map, normalize_yarn_weight (some kv.2) = some kv.2 := by
  decide

/-- The claim C9 theorem: `normalize_yarn_weight` is idempotent on every
input, including the absent value and arbitrary free-text labels. -/
theorem normalize_yarn_weight_idem (x : Option String) :
    normalize_yarn_weight (normalize_yarn_weight x) = normalize_yarn_weight x := by
  cases x with
  | none => rfl
  | some w =>
    show normalize_yarn_weight (normalize_yarn_weight (some w)) = _
    rw [show normalize_yarn_weight (some w)
        = match lookupSub (trimLower w) weight_map with
          | some v => some v
          | none => some (trimLower w) from rfl]
    cases h : lookupSub (trimLower w) weight_map with
    | some v =>
      obtain ⟨k, hk⟩ := lookupSub_some_mem h
      exact weight_map_values_fixed (k, v) hk
    | none =>
      show normalize_yarn_weight (some (trimLower w)) = some (trimLower w)
      rw [show normalize_yarn_weight (some (trimLower w))
          = match lookupSub (trimLower (trimLower w)) weight_map with
            | some v => some v
            | none => some (trimLower (trimLower w)) from rfl]
      rw [trimLower_idem, h]

/-! ## Lemmas: criterion score bounds -/

theorem weight_score_mem (pw yw : Option String) :
    weight_score pw yw = 0 ∨ weight_score pw yw = 15 ∨ weight_score pw yw = 30 := by
  unfold weight_score
  split
  · split_ifs with h1 h2
    · exact Or.inl rfl
    · exact Or.inr (Or.inr rfl)
    · split
      · split_ifs
        · exact Or.inr (Or.inl rfl)
        · exact Or.inl rfl
      · exact Or.inl rfl
  · exact Or.inl rfl

theorem hook_score_mem (ph yh : Cell) :
    hook_score ph yh = 0 ∨ hook_score ph yh = 10 ∨ hook_score ph yh = 15 ∨
      hook_score ph yh = 20 := by
  unfold hook_score
  split
  · split_ifs
    · exact Or.inr (Or.inr (Or.inr rfl))
    · exact Or.inr (Or.inr (Or.inl rfl))
    · exact Or.inr (Or.inl rfl)
    · exact Or.inl rfl
  · exact Or.inl rfl

theorem composition_score_mem (ct : Option String) (c a w : Option ℚ) :
    composition_score ct c a w = 0 ∨ composition_score ct c a w = 10 ∨
      composition_score ct c a w = 20 := by
  simp only [composition_score]
  split_ifs
  · exact Or.inr (Or.inr rfl)
  · exact Or.inr (Or.inr rfl)
  · exact Or.inr (Or.inr rfl)
  · exact Or.inr (Or.inl rfl)
  · exact Or.inl rfl

theorem price_score_mem (p : Cell) :
    price_score p = 0 ∨ price_score p = 5 ∨ price_score p = 10 ∨
      price_score p = 15 ∨ price_score p = 15/2 := by
  unfold price_score
  split
  · exact Or.inl rfl
  · split_ifs
    · exact Or.inr (Or.inr (Or.inr (Or.inl rfl)))
    · exact Or.inr (Or.inr (Or.inl rfl))
    · exact Or.inr (Or.inl rfl)
    · exact Or.inl rfl
  · exact Or.inr (Or.inr (Or.inr (Or.inr rfl)))

theorem rating_score_bounds {r : Cell}
    (h : ∀ q, r = Cell.num q → 0 ≤ q ∧ q ≤ 5) :
    0 ≤ rating_score r ∧ rating_score r ≤ 15 := by
  cases r with
  | na => norm_num [rating_score]
  | num q =>
    obtain ⟨h0, h5⟩ := h q rfl
    unfold rating_score
    constructor <;> [positivity; nlinarith]
  | nonnum => norm_num [rating_score]

theorem calculate_match_score_eq_sum (p : Pattern) (y : Yarn) :
    calculate_match_score p y
      = weight_score p.yarn_weight y.thickness
        + hook_score p.hook_size y.hook
        + composition_score p.recommended_composition y.cotton y.acrylic y.wool
        + rating_score y.rating
        + price_score y.price := by
  unfold calculate_match_score
  rw [if_pos (by norm_num)]
  rw [div_mul_cancel₀ _ (by norm_num : (100 : ℚ) ≠ 0)]

theorem rating_score_bounds_of_scale {r : Cell} (h : rating_within_scale r) :
    0 ≤ rating_score r ∧ rating_score r ≤ 15 := by
  apply rating_score_bounds
  intro q hq
  rw [hq] at h
  exact h

theorem hook_score_num (a b : ℚ) :
    hook_score (Cell.num a) (Cell.num b)
      = if |a - b| = 0 then 20
        else if |a - b| ≤ 1/2 then 15
        else if |a - b| ≤ 1 then 10
        else 0 := rfl

/-- C2 counterexample: the rating sub-score is NOT clamped.  A numeric
rating of 10 yields sub-score 30 > 15, a rating of -5 yields a negative
sub-score, and with the other criteria maxed the base composite reaches
115 > 100. -/
theorem rating_not_clamped_cex :
    rating_score (Cell.num 10) = 30
    ∧ ¬ rating_score (Cell.num 10) ≤ 15
    ∧ rating_score (Cell.num (-5)) = -15
    ∧ calculate_match_score overPattern overYarn = 115
    ∧ ¬ calculate_match_score overPattern overYarn ≤ 100 := by
  have hr10 : rating_score (Cell.num 10) = 30 := by norm_num [rating_score]
  have hrm5 : rating_score (Cell.num (-5)) = -15 := by norm_num [rating_score]
  have hbase : calculate_match_score overPattern overYarn = 115 := by
    rw [calculate_match_score_eq_sum]
    have hw : weight_score overPattern.yarn_weight overYarn.thickness = 30 := by decide
    have hh : hook_score overPattern.hook_size overYarn.hook = 20 := by
      show hook_score (Cell.num 5) (Cell.num 5) = 20
      rw [hook_score_num]
      norm_num
    have hc : composition_score overPattern.recommended_composition overYarn.cotton
        overYarn.acrylic overYarn.wool = 20 := by decide
    have hp : price_score overYarn.price = 15 := by decide
    have hr : rating_score overYarn.rating = 30 := by
      show rating_score (Cell.num 10) = 30
      exact hr10
    rw [hw, hh, hc, hp, hr]
    norm_num
  exact ⟨hr10, by rw [hr10]; norm_num, hrm5, hbase, by rw [hbase]; norm_num⟩

/-- C2 (amended): every criterion sub-score other than rating always lies
in its declared [0, max] range; the rating sub-score is the unclamped
`rating/5*15`, so it lies in [0, 15] whenever the numeric rating is on
its documented 0-5 scale (non-numeric and absent ratings always do), and
under that condition no sub-score is negative and the base composite
returned by `calculate_match_score` lies in [0, 100]. -/
theorem sub_scores_in_range (p : Pattern) (y : Yarn)
    (h : rating_within_scale y.rating) :
    (0 ≤ weight_score p.yarn_weight y.thickness
      ∧ weight_score p.yarn_weight y.thickness ≤ 30)
    ∧ (0 ≤ hook_score p.hook_size y.hook ∧ hook_score p.hook_size y.hook ≤ 20)
    ∧ (0 ≤ composition_score p.recommended_composition y.cotton y.acrylic y.wool
      ∧ composition_score p.recommended_composition y.cotton y.acrylic y.wool ≤ 20)
    ∧ (0 ≤ rating_score y.rating ∧ rating_score y.rating ≤ 15)
    ∧ (0 ≤ price_score y.price ∧ price_score y.price ≤ 15)
    ∧ (0 ≤ calculate_match_score p y ∧ calculate_match_score p y ≤ 100) := by
  have hw := weight_score_mem p.yarn_weight y.thickness
  have hh := hook_score_mem p.hook_size y.hook
  have hc := composition_score_mem p.recommended_composition y.cotton y.acrylic y.wool
  have hp := price_score_mem y.price
  have hr := rating_score_bounds_of_scale h
  have hw2 : 0 ≤ weight_score p.yarn_weight y.thickness
      ∧ weight_score p.yarn_weight y.thickness ≤ 30 := by
    rcases hw with h1 | h1 | h1 <;> rw [h1] <;> norm_num
  have hh2 : 0 ≤ hook_score p.hook_size y.hook ∧ hook_score p.hook_size y.hook ≤ 20 := by
    rcases hh with h1 | h1 | h1 | h1 <;> rw [h1] <;> norm_num
  have hc2 : 0 ≤ composition_score p.recommended_composition y.cotton y.acrylic y.wool
      ∧ composition_score p.recommended_composition y.cotton y.acrylic y.wool ≤ 20 := by
    rcases hc with h1 | h1 | h1 <;> rw [h1] <;> norm_num
  have hp2 : 0 ≤ price_score y.price ∧ price_score y.price ≤ 15 := by
    rcases hp with h1 | h1 | h1 | h1 | h1 <;> rw [h1] <;> norm_num
  refine ⟨hw2, hh2, hc2, hr, hp2, ?_⟩
  rw [calculate_match_score_eq_sum]
  constructor <;> linarith [hw2.1, hw2.2, hh2.1, hh2.2, hc2.1, hc2.2, hr.1, hr.2,
    hp2.1, hp2.2]

theorem sub_scores_in_range_witness :
    (0 ≤ weight_score overPattern.yarn_weight scaleYarn.thickness
      ∧ weight_score overPattern.yarn_weight scaleYarn.thickness ≤ 30)
    ∧ (0 ≤ hook_score overPattern.hook_size scaleYarn.hook
      ∧ hook_score overPattern.hook_size scaleYarn.hook ≤ 20)
    ∧ (0 ≤ composition_score overPattern.recommended_composition scaleYarn.cotton
        scaleYarn.acrylic scaleYarn.wool
      ∧ composition_score overPattern.recommended_composition scaleYarn.cotton
        scaleYarn.acrylic scaleYarn.wool ≤ 20)
    ∧ (0 ≤ rating_score scaleYarn.rating ∧ rating_score scaleYarn.rating ≤ 15)
    ∧ (0 ≤ price_score scaleYarn.price ∧ price_score scaleYarn.price ≤ 15)
    ∧ (0 ≤ calculate_match_score overPattern scaleYarn
      ∧ calculate_match_score overPattern scaleYarn ≤ 100) :=
  sub_scores_in_range overPattern scaleYarn (by decide)

/-! ## Claim theorems: hook criterion, temperature blend, fiber warmth -/

/-- C7: when both hook sizes parse as numbers with absolute difference d,
the hook criterion scores 20 at d = 0, 15 for d ≤ 0.5, 10 for d ≤ 1, and
0 beyond (so a difference of 2.0 contributes 0); a missing or
unparseable value on either side contributes 0 without fault. -/
theorem hook_criterion_spec :
    (∀ a b : ℚ, hook_score (Cell.num a) (Cell.num b)
      = if |a - b| = 0 then 20
        else if |a - b| ≤ 1/2 then 15
        else if |a - b| ≤ 1 then 10
        else 0)
    ∧ (∀ v : Cell, hook_score Cell.na v = 0 ∧ hook_score v Cell.na = 0
        ∧ hook_score Cell.nonnum v = 0 ∧ hook_score v Cell.nonnum = 0)
    ∧ hook_score (Cell.num 4) (Cell.num 6) = 0 := by
  refine ⟨fun a b => rfl, fun v => ⟨rfl, ?_, rfl, ?_⟩, ?_⟩
  · cases v <;> rfl
  · cases v <;> rfl
  · rw [hook_score_num]
    norm_num

/-- C5: with a temperature context, the blended total is
0.7 × base composite + temperature score, where the temperature score is
30 − 1.5×|t − ideal| floored at 0 inside the comfort range and
30 − 3×(distance to the nearest bound) floored at 0 outside, folded in
additively without renormalization. -/
theorem blended_total_spec (p : Pattern) (y : Yarn) (t : ℚ) :
    app_total_score p y t
      = calculate_match_score p y * (7/10)
        + (if (get_yarn_temp_range y).min ≤ t ∧ t ≤ (get_yarn_temp_range y).max
           then max 0 (30 - (3/2) * |t - (get_yarn_temp_range y).ideal|)
           else max 0 (30 - 3 * (if t < (get_yarn_temp_range y).min
                                 then (get_yarn_temp_range y).min - t
                                 else t - (get_yarn_temp_range y).max))) := by
  unfold app_total_score calculate_temp_match_score
  congr 1
  split_ifs with h1
  · rw [mul_comm (|t - (get_yarn_temp_range y).ideal|) ((3 : ℚ)/2)]
  · rw [mul_comm ((get_yarn_temp_range y).min - t) (3 : ℚ)]
  · rw [mul_comm (t - (get_yarn_temp_range y).max) (3 : ℚ)]

/-- C8: the fiber-warmth classifier computes cool = cotton+linen+bamboo
and warm = wool+mohair and decides first-match-wins in the order
warm>50 (Warm [-10,15] ideal 5), cool>50 (Cool [15,35] ideal 22),
acrylic>70 (All-season [5,20] ideal 12), default Blend [5,25] ideal 15;
in particular wool=70, mohair=10 yields Warm with ideal 5. -/
theorem fiber_warmth_spec :
    (∀ y : Yarn,
      get_yarn_temp_range y
        = if gtNa (addNa y.wool y.mohair) 50
          then ⟨-10, 15, 5, "Warm (Wool/Alpaca)"⟩
          else if gtNa (addNa (addNa y.cotton y.linen) y.bamboo) 50
          then ⟨15, 35, 22, "Cool (Cotton/Linen)"⟩
          else if gtNa y.acrylic 70
          then ⟨5, 20, 12, "All-season (Acrylic)"⟩
          else ⟨5, 25, 15, "Blend"⟩)
    ∧ get_yarn_temp_range woolYarn = ⟨-10, 15, 5, "Warm (Wool/Alpaca)"⟩
    ∧ (get_yarn_temp_range woolYarn).ideal = 5 := by
  have hwool : get_yarn_temp_range woolYarn = ⟨-10, 15, 5, "Warm (Wool/Alpaca)"⟩ := by
    have h80 : addNa woolYarn.wool woolYarn.mohair = some 80 := by
      show addNa (some 70) (some 10) = some 80
      norm_num [addNa]
    show (if gtNa (addNa woolYarn.wool woolYarn.mohair) 50
          then (⟨-10, 15, 5, "Warm (Wool/Alpaca)"⟩ : TempRange)
          else if gtNa (addNa (addNa woolYarn.cotton woolYarn.linen) woolYarn.bamboo) 50
          then ⟨15, 35, 22, "Cool (Cotton/Linen)"⟩
          else if gtNa woolYarn.acrylic 70
          then ⟨5, 20, 12, "All-season (Acrylic)"⟩
          else ⟨5, 25, 15, "Blend"⟩) = ⟨-10, 15, 5, "Warm (Wool/Alpaca)"⟩
    rw [h80]
    rw [if_pos (by norm_num [gtNa])]
  exact ⟨fun y => rfl, hwool, by rw [hwool]⟩

/-- C10: deriving the comfort range is total and always returns one of
the four fixed descriptors; with every fiber percentage NaN (or reading
as the absent-column default 0) every threshold comparison fails and the
Blend descriptor {min 5, max 25, ideal 15} is returned. -/
theorem fiber_warmth_total :
    (∀ y : Yarn,
      get_yarn_temp_range y = ⟨-10, 15, 5, "Warm (Wool/Alpaca)"⟩
      ∨ get_yarn_temp_range y = ⟨15, 35, 22, "Cool (Cotton/Linen)"⟩
      ∨ get_yarn_temp_range y = ⟨5, 20, 12, "All-season (Acrylic)"⟩
      ∨ get_yarn_temp_range y = ⟨5, 25, 15, "Blend"⟩)
    ∧ get_yarn_temp_range nanYarn = ⟨5, 25, 15, "Blend"⟩
    ∧ get_yarn_temp_range zeroFiberYarn = ⟨5, 25, 15, "Blend"⟩ := by
  refine ⟨fun y => ?_, rfl, ?_⟩
  · simp only [get_yarn_temp_range]
    split_ifs
    · exact Or.inl rfl
    · exact Or.inr (Or.inl rfl)
    · exact Or.inr (Or.inr (Or.inl rfl))
    · exact Or.inr (Or.inr (Or.inr rfl))
  · have hw : addNa zeroFiberYarn.wool zeroFiberYarn.mohair = some 0 := by
      show addNa (some 0) (some 0) = some 0
      norm_num [addNa]
    have hc : addNa (addNa zeroFiberYarn.cotton zeroFiberYarn.linen) zeroFiberYarn.bamboo
        = some 0 := by
      show addNa (addNa (some 0) (some 0)) (some 0) = some 0
      norm_num [addNa]
    show (if gtNa (addNa zeroFiberYarn.wool zeroFiberYarn.mohair) 50
          then (⟨-10, 15, 5, "Warm (Wool/Alpaca)"⟩ : TempRange)
          else if gtNa (addNa (addNa zeroFiberYarn.cotton zeroFiberYarn.linen)
              zeroFiberYarn.bamboo) 50
          then ⟨15, 35, 22, "Cool (Cotton/Linen)"⟩
          else if gtNa zeroFiberYarn.acrylic 70
          then ⟨5, 20, 12, "All-season (Acrylic)"⟩
          else ⟨5, 25, 15, "Blend"⟩) = ⟨5, 25, 15, "Blend"⟩
    rw [hw, hc]
    rw [if_neg (by norm_num [gtNa]), if_neg (by norm_num [gtNa]),
      if_neg (by show ¬ gtNa (some 0) 70 = true; norm_num [gtNa])]

/-! ## Claim theorems: composition criterion, lookup failures -/

/-- C6 counterexample: with composition text "Cotton or Acrylic", cotton
30% and acrylic 60%, the first keyword found ("cotton") does NOT decide
the outcome: its percentage fails the >50 test, yet the code still
awards 20 points through the later "acrylic" branch, where the claim
as stated awards nothing (the text does not contain "not specified"). -/
theorem composition_first_keyword_cex :
    substrOf "cotton" (lowerStr (strOf (some "Cotton or Acrylic"))) = true
    ∧ gtNa (some (30 : ℚ)) 50 = false
    ∧ substrOf "not specified" (lowerStr (strOf (some "Cotton or Acrylic"))) = false
    ∧ composition_score (some "Cotton or Acrylic") (some 30) (some 60) none = 20 := by
  refine ⟨by decide, by norm_num [gtNa], by decide, by decide⟩

/-- C6 (amended): the branches are tried in the priority order cotton,
acrylic, wool, and a branch fires only when its keyword occurs in the
lower-cased text AND that fiber percentage exceeds 50 — a found keyword
whose percentage fails the test does not stop the scan; if no branch
fires, text containing "not specified" scores 10, otherwise 0. -/
theorem composition_criterion_spec :
    (∀ (ct : Option String) (c a w : Option ℚ),
      composition_score ct c a w
        = if substrOf "cotton" (lowerStr (strOf ct)) && gtNa c 50 then 20
          else if substrOf "acrylic" (lowerStr (strOf ct)) && gtNa a 50 then 20
          else if substrOf "wool" (lowerStr (strOf ct)) && gtNa w 50 then 20
          else if substrOf "not specified" (lowerStr (strOf ct)) then 10
          else 0)
    ∧ composition_score (some "Cotton or Acrylic") (some 30) (some 60) none = 20 := by
  exact ⟨fun ct c a w => rfl, by decide⟩

/-- C4: a pattern name that matches no row of the pattern table makes
the ranker signal a lookup failure to the caller (the `IndexError` that
`.iloc[0]` raises on the empty selection, modelled as `notFound`) before
any yarn is scored. -/
theorem unknown_pattern_signals (pattern_name : String) (patterns : List Pattern)
    (yarns : List Yarn) (top_n : ℕ)
    (h : ∀ p ∈ patterns, p.name ≠ pattern_name) :
    match_yarn_to_pattern pattern_name patterns yarns top_n
      = Except.error MatchError.notFound := by
  unfold match_yarn_to_pattern
  have hf : patterns.filter (fun p => p.name == pattern_name) = [] := by
    rw [List.filter_eq_nil_iff]
    intro p hp
    simp [h p hp]
  rw [hf]

theorem unknown_pattern_signals_witness :
    match_yarn_to_pattern "MISSING PATTERN" [circlePattern] [woolYarn] 5
      = Except.error MatchError.notFound :=
  unknown_pattern_signals "MISSING PATTERN" [circlePattern] [woolYarn] 5 (by decide)

/-- C3: ranking an existing pattern against an empty yarn catalog does
NOT return an empty list: the scores table built from an empty list has
no columns, so sorting on the score column raises `KeyError`. -/
theorem empty_catalog_faults (pattern_name : String) (patterns : List Pattern)
    (top_n : ℕ) (p : Pattern) (rest : List Pattern)
    (h : patterns.filter (fun q => q.name == pattern_name) = p :: rest) :
    match_yarn_to_pattern pattern_name patterns [] top_n
      = Except.error MatchError.keyError := by
  unfold match_yarn_to_pattern
  rw [h]
  rfl

theorem empty_catalog_faults_witness :
    match_yarn_to_pattern "CIRCLE CUSHION" [circlePattern] [] 5
      = Except.error MatchError.keyError :=
  empty_catalog_faults "CIRCLE CUSHION" [circlePattern] 5 circlePattern [] (by decide)

/-! ## Lemmas: the ranker -/

theorem match_yarn_cons (pattern_name : String) (patterns : List Pattern)
    (yarns : List Yarn) (top_n : ℕ) (p0 : Pattern) (ps : List Pattern)
    (hf : patterns.filter (fun r => r.name == pattern_name) = p0 :: ps) :
    match_yarn_to_pattern pattern_name patterns yarns top_n
      = if (List.map (mkMatchResult p0) yarns).isEmpty = true
        then Except.error MatchError.keyError
        else Except.ok (p0,
          (List.insertionSort scoreGe (List.map (mkMatchResult p0) yarns)).take top_n) := by
  unfold match_yarn_to_pattern
  rw [hf]

/-! ## Claim theorems: the ranker -/

/-- C1 counterexample: called without `top_n` the ranker keeps its
declared default 5, not 3 — on a 4-yarn catalog it returns all 4 rows,
which a top-3 default would forbid. -/
theorem rank_default_topn_cex :
    (match_yarn_to_pattern_default "A" [pA] [wy1, wy2, wy3, wy4]).map
        (fun r => r.2.length) = Except.ok 4
    ∧ ¬ (4 : ℕ) ≤ 3 := by
  constructor
  · unfold match_yarn_to_pattern_default
    rw [match_yarn_cons "A" [pA] [wy1, wy2, wy3, wy4] 5 pA [] (by decide),
      if_neg (by simp)]
    rw [show (Except.ok (pA, (List.insertionSort scoreGe
          (List.map (mkMatchResult pA) [wy1, wy2, wy3, wy4])).take 5)
            : Except MatchError (Pattern × List MatchResult)).map (fun r => r.2.length)
        = Except.ok ((List.insertionSort scoreGe
          (List.map (mkMatchResult pA) [wy1, wy2, wy3, wy4])).take 5).length from rfl]
    rw [List.length_take, List.length_insertionSort, List.length_map]
    rfl
  · decide

/-- C1 (amended): whenever the ranker succeeds, its output is sorted in
non-increasing order of total score, every returned row is one of the
scored catalog rows, and the output length is at most the requested
`top_n` (which defaults to 5, not 3, when not supplied) and at most the
catalog size.  The source does not guarantee stability on exact score
ties: `sort_values` runs at its default non-stable `kind=quicksort`, so
no tie-order property is claimed. -/
theorem rank_sorted_bounded (pattern_name : String) (patterns : List Pattern)
    (yarns : List Yarn) (top_n : ℕ) (r : MatchResult) (p : Pattern)
    (res : List MatchResult)
    (h : match_yarn_to_pattern pattern_name patterns yarns top_n = Except.ok (p, res)) :
    List.Sorted scoreGe res
    ∧ res.length ≤ top_n
    ∧ res.length ≤ yarns.length
    ∧ (r ∈ res → r ∈ yarns.map (mkMatchResult p))
    ∧ match_yarn_to_pattern_default pattern_name patterns yarns
        = match_yarn_to_pattern pattern_name patterns yarns 5 := by
  cases hf : patterns.filter (fun r => r.name == pattern_name) with
  | nil =>
    rw [show match_yarn_to_pattern pattern_name patterns yarns top_n
        = Except.error MatchError.notFound from by
      unfold match_yarn_to_pattern; rw [hf]] at h
    exact absurd h (by simp)
  | cons p0 ps =>
    rw [match_yarn_cons pattern_name patterns yarns top_n p0 ps hf] at h
    by_cases hy : (List.map (mkMatchResult p0) yarns).isEmpty = true
    · rw [if_pos hy] at h
      exact absurd h (by simp)
    · rw [if_neg hy] at h
      rw [Except.ok.injEq, Prod.mk.injEq] at h
      obtain ⟨hp, hres⟩ := h
      subst hp
      subst hres
      refine ⟨?_, ?_, ?_, ?_, rfl⟩
      · exact List.Pairwise.sublist (List.take_sublist _ _)
          (List.sorted_insertionSort scoreGe _)
      · rw [List.length_take]
        exact min_le_left _ _
      · rw [List.length_take, List.length_insertionSort, List.length_map]
        exact min_le_right _ _
      · intro hr
        exact ((List.perm_insertionSort scoreGe _).mem_iff).mp
          ((List.take_sublist _ _).subset hr)

theorem rank_sorted_bounded_witness :
    List.Sorted scoreGe [mkMatchResult pA wy1]
    ∧ [mkMatchResult pA wy1].length ≤ 1
    ∧ [mkMatchResult pA wy1].length ≤ ([wy1, wy2] : List Yarn).length
    ∧ (mkMatchResult pA wy1 ∈ [mkMatchResult pA wy1]
        → mkMatchResult pA wy1 ∈ ([wy1, wy2] : List Yarn).map (mkMatchResult pA))
    ∧ match_yarn_to_pattern_default "A" [pA] [wy1, wy2]
        = match_yarn_to_pattern "A" [pA] [wy1, wy2] 5 := by
  have hz1 : calculate_match_score pA wy1 = 0 := by
    rw [calculate_match_score_eq_sum,
      show weight_score pA.yarn_weight wy1.thickness = 0 from rfl,
      show hook_score pA.hook_size wy1.hook = 0 from rfl,
      show composition_score pA.recommended_composition wy1.cotton wy1.acrylic wy1.wool
        = 0 from by decide,
      show rating_score wy1.rating = 0 from rfl,
      show price_score wy1.price = 0 from rfl]
    norm_num
  have hz2 : calculate_match_score pA wy2 = 0 := by
    rw [calculate_match_score_eq_sum,
      show weight_score pA.yarn_weight wy2.thickness = 0 from rfl,
      show hook_score pA.hook_size wy2.hook = 0 from rfl,
      show composition_score pA.recommended_composition wy2.cotton wy2.acrylic wy2.wool
        = 0 from by decide,
      show rating_score wy2.rating = 0 from rfl,
      show price_score wy2.price = 0 from rfl]
    norm_num
  have hkey : match_yarn_to_pattern "A" [pA] [wy1, wy2] 1
      = Except.ok (pA, [mkMatchResult pA wy1]) := by
    rw [match_yarn_cons "A" [pA] [wy1, wy2] 1 pA [] (by decide), if_neg (by simp)]
    have hsorted : List.insertionSort scoreGe [mkMatchResult pA wy1, mkMatchResult pA wy2]
        = [mkMatchResult pA wy1, mkMatchResult pA wy2] := by
      apply List.Sorted.insertionSort_eq
      refine List.sorted_cons.mpr ⟨?_, List.sorted_singleton _⟩
      intro b hb
      rw [List.mem_singleton] at hb
      subst hb
      show calculate_match_score pA wy2 ≤ calculate_match_score pA wy1
      rw [hz1, hz2]
    rw [show List.map (mkMatchResult pA) [wy1, wy2]
        = [mkMatchResult pA wy1, mkMatchResult pA wy2] from rfl, hsorted]
    rfl
  exact rank_sorted_bounded "A" [pA] [wy1, wy2] 1 (mkMatchResult pA wy1) pA
    [mkMatchResult pA wy1] hkey

end Tangled
